import Mathlib

/-!
# EasyQ-Go bridge: verification of the specified core

The repository ships two C header variants declaring the EasyQ bridge
surface (`src/bridge/bridge.h` and `src/internal/bridge/bridge.h`); no
implementation is present under `src/`.  The headers are embedded below
verbatim as data (status-code macro tables and function-declaration
tables).  The behavioural components the spec describes
(ConnectionManager, RandomnessEngine, SearchEngine,
KeyDistributionEngine, ChannelSecurityVerifier) are modelled from the
spec, each marked as such in its doc comment.
-/

namespace EasyQ

/-! ## Header surface, embedded from the source -/

/-- C types appearing in the two bridge headers. -/
inductive CType where
  | cint
  | cvoid
  | constCharPtr
  | charPtr
  | charPtrPtr
  | intPtr
  | ucharPtr
deriving DecidableEq, Repr

/-- One C function declaration: name, return type, argument types. -/
structure CDecl where
  name : String
  ret : CType
  args : List CType
deriving DecidableEq, Repr

/-- Status-code macros of `src/bridge/bridge.h` (lines 33-38), in source order. -/
def bridgeStatusCodes : List (String × Nat) :=
  [("EASYQ_SUCCESS", 0),
   ("EASYQ_ERROR_GENERAL", 1),
   ("EASYQ_ERROR_NOT_INITIALIZED", 2),
   ("EASYQ_ERROR_INVALID_ARGUMENT", 3),
   ("EASYQ_ERROR_RUNTIME", 4),
   ("EASYQ_ERROR_TIMEOUT", 5)]

/-- Status-code macros of `src/internal/bridge/bridge.h` (lines 11-18), in source order. -/
def internalStatusCodes : List (String × Nat) :=
  [("EASYQ_SUCCESS", 0),
   ("EASYQ_ERROR_GENERAL", 1),
   ("EASYQ_ERROR_NOT_INITIALIZED", 2),
   ("EASYQ_ERROR_INVALID_ARGUMENT", 3),
   ("EASYQ_ERROR_RUNTIME", 4),
   ("EASYQ_ERROR_TIMEOUT", 5),
   ("EASYQ_ERROR_AUTHENTICATION", 6),
   ("EASYQ_ERROR_CONNECTION", 7)]

open CType in
/-- Function declarations of `src/bridge/bridge.h`, in source order. -/
def bridgeDecls : List CDecl :=
  [⟨"EasyQ_Initialize", cint, []⟩,
   ⟨"EasyQ_Shutdown", cvoid, []⟩,
   ⟨"EasyQ_ConfigureConnection", cint, [constCharPtr]⟩,
   ⟨"EasyQ_FreeString", cvoid, [charPtr]⟩,
   ⟨"EasyQ_Search", cint, [constCharPtr, constCharPtr, constCharPtr, charPtrPtr]⟩,
   ⟨"EasyQ_GenerateRandomInt", cint, [cint, cint, intPtr]⟩,
   ⟨"EasyQ_GenerateRandomBytes", cint, [cint, ucharPtr]⟩,
   ⟨"EasyQ_GenerateKey", cint, [constCharPtr, charPtrPtr]⟩]

open CType in
/-- Function declarations of `src/internal/bridge/bridge.h`, in source order. -/
def internalDecls : List CDecl :=
  [⟨"EasyQ_Initialize", cint, []⟩,
   ⟨"EasyQ_Shutdown", cvoid, []⟩,
   ⟨"EasyQ_ConfigureConnection", cint, [constCharPtr]⟩,
   ⟨"EasyQ_GenerateRandomInt", cint, [cint, cint, intPtr]⟩,
   ⟨"EasyQ_GenerateRandomBytes", cint, [cint, ucharPtr]⟩,
   ⟨"EasyQ_Search", cint, [constCharPtr, constCharPtr, constCharPtr, charPtrPtr]⟩,
   ⟨"EasyQ_GenerateKey", cint, [constCharPtr, charPtrPtr]⟩,
   ⟨"EasyQ_VerifyChannelSecurity", cint, [constCharPtr, charPtrPtr]⟩,
   ⟨"EasyQ_FreeString", cvoid, [charPtr]⟩]

open CType in
/-- The single declaration present only in the internal header. -/
def verifyChannelSecurityDecl : CDecl :=
  ⟨"EasyQ_VerifyChannelSecurity", cint, [constCharPtr, charPtrPtr]⟩

/-! ## Common status and provenance types (spec section 6 and 7) -/

/-- The status taxonomy of spec section 6, one constructor per declared
status outcome of the richer header. -/
inductive Status where
  | success
  | generalError
  | notInitialized
  | invalidArgument
  | runtimeError
  | timeout
  | authenticationError
  | connectionError
deriving DecidableEq, Repr

/-- Numeric code of each status, mirroring the header macros. -/
def Status.code : Status → Nat
  | .success => 0
  | .generalError => 1
  | .notInitialized => 2
  | .invalidArgument => 3
  | .runtimeError => 4
  | .timeout => 5
  | .authenticationError => 6
  | .connectionError => 7

/-- Provenance flag of a random result (spec section 3, RandomResult). -/
inductive Provenance where
  | quantumSourced
  | fallbackSourced
deriving DecidableEq, Repr

/-! ## RandomnessEngine (spec section 4.2) -/

/-- Modelled from the spec: the rejection-sampling loop of `randomInt`
(no implementation exists under `src/`; only the declaration
`EasyQ_GenerateRandomInt` is present).  The entropy source is a stream
of fixed-width samples; a sample is accepted exactly when it falls below
the requested range, so accepted values are never reduced by a modulus
(no modulo bias).  Returns `none` when the stream is exhausted before a
sample is accepted. -/
def rejectionSample (range : Nat) : List Nat → Option Nat
  | [] => none
  | s :: rest => if s < range then some s else rejectionSample range rest

/-- Modelled from the spec: `randomInt(min, max)` — fails
`InvalidArgument` if `min > max`; otherwise draws entropy samples until
one falls within the range via rejection sampling and returns the drawn
value plus provenance; an exhausted deadline (modelled as an exhausted
entropy stream) fails `Timeout`. -/
def randomInt (entropy : List Nat) (lo hi : Int) :
    Except Status (Int × Provenance) :=
  if hi < lo then .error .invalidArgument
  else
    match rejectionSample (hi - lo + 1).toNat entropy with
    | some s => .ok (lo + s, .quantumSourced)
    | none => .error .timeout

/-- Modelled from the spec: `randomBytes(length)` — fails
`InvalidArgument` if `length < 0`; fills a buffer of exactly `length`
bytes from the quantum source when it is reachable, else from the
classical fallback marked `FallbackSourced`; if a source cannot deliver
the full buffer before the deadline the call fails (`Timeout` on the
quantum path, `Runtime` when the classical fallback also fails) and no
partial buffer is ever returned. -/
def randomBytes (quantum : Option (List Nat)) (classical : List Nat)
    (length : Int) : Except Status (List Nat × Provenance) :=
  if length < 0 then .error .invalidArgument
  else
    match quantum with
    | some qs =>
        if length.toNat ≤ qs.length then
          .ok (qs.take length.toNat, .quantumSourced)
        else .error .timeout
    | none =>
        if length.toNat ≤ classical.length then
          .ok (classical.take length.toNat, .fallbackSourced)
        else .error .runtimeError

/-! ## Probabilities as fixed-point numbers -/

/-- Probabilities, confidences and error rates are represented in
fixed point, as parts per million: `probScale` stands for `1.0`. -/
def probScale : Nat := 1000000

/-! ## SearchEngine (spec section 4.3) -/

/-- Search options (spec section 3, SearchRequest): iteration cap and
target success probability in parts per million (the timeout is
modelled by the finite readout stream). -/
structure SearchOptions where
  maxIterations : Nat
  target : Nat
deriving DecidableEq, Repr

/-- Search result (spec section 3, SearchResult): matching item indices,
achieved confidence (parts per million), iterations used,
degraded-result flag, and the number of calls made to the quantum
resource. -/
structure SearchResult where
  matchIdxs : List Nat
  confidence : Nat
  iterations : Nat
  degraded : Bool
  resourceCalls : Nat
deriving DecidableEq, Repr

/-- Modelled from the spec: the theoretical amplitude-amplification
round bound derived from collection size (about the square root of the
collection size under the quadratic-speedup cost model). -/
def groverBound (n : Nat) : Nat := Nat.sqrt n + 1

/-- Modelled from the spec: run amplification rounds against the
resource.  Each round consumes one probabilistic amplitude readout
(clamped to `[0, 1]`) and accumulates the running confidence estimate;
rounds stop as soon as the target is met or the budget or readout
stream is exhausted.  Returns the final confidence and the number of
rounds actually run (= resource calls). -/
def runRounds (target : Nat) : List Nat → Nat → Nat → Nat × Nat
  | _, 0, conf => (conf, 0)
  | [], _, conf => (conf, 0)
  | r :: rest, Nat.succ b, conf =>
      let conf2 := conf + (probScale - conf) * (min probScale r) / probScale
      if target ≤ conf2 then (conf2, 1)
      else
        let next := runRounds target rest b conf2
        (next.1, next.2 + 1)

/-- Modelled from the spec: `search` (declared as `EasyQ_Search`; no
implementation exists under `src/`).  Validates the request (a target
success probability above `1.0` is a malformed option,
`InvalidArgument`); an empty item collection returns an empty result
with confidence `1.0` without contacting the resource (zero resource
calls); otherwise runs at most `min maxIterations (groverBound N)`
rounds and flags the result degraded when the achieved confidence is
below target. -/
def search (items : List String) (pred : String → Bool)
    (opts : SearchOptions) (readouts : List Nat) : Except Status SearchResult :=
  if probScale < opts.target then .error .invalidArgument
  else if items = [] then .ok ⟨[], probScale, 0, false, 0⟩
  else
    let budget := min opts.maxIterations (groverBound items.length)
    let outcome := runRounds opts.target readouts budget 0
    .ok ⟨(items.enum.filter (fun p => pred p.2)).map Prod.fst,
         outcome.1, outcome.2, decide (outcome.1 < opts.target), outcome.2⟩

/-! ## ConnectionManager (spec section 4.1) -/

/-- Session state of a Connection (spec section 3). -/
inductive SessionState where
  | unconfigured
  | configuring
  | ready
  | failed
deriving DecidableEq, Repr

/-- A live Connection object (spec section 3): endpoint descriptor,
credential, session state. -/
structure Connection where
  endpointUrl : String
  credential : String
  session : SessionState
deriving DecidableEq, Repr

/-- A connection configuration document plus the environment outcomes of
using it (whether the credential is accepted and the transport handshake
succeeds). -/
structure ConnConfig where
  endpointUrl : String
  credential : String
  maxQubits : Nat
  maxShots : Nat
  credentialOk : Bool
  handshakeOk : Bool
deriving DecidableEq, Repr

/-- Process-wide ConnectionManager state: the initialized flag and the
list of currently live Connection objects. -/
structure ManagerState where
  initialized : Bool
  conns : List Connection
deriving DecidableEq, Repr

/-- Modelled from the spec: `initialize()` allocates process-wide state;
a second call without an intervening shutdown fails (the spec names the
failure RuntimeNotReady; the declared status-code set has no such code,
so the model uses the declared Runtime error) and leaves the state
unchanged. -/
def initRuntime (st : ManagerState) : Status × ManagerState :=
  if st.initialized then (.runtimeError, st)
  else (.success, { st with initialized := true })

/-- Modelled from the spec: `shutdown()` releases the active Connection;
safe to call when already uninitialized. -/
def shutdown (_st : ManagerState) : ManagerState := ⟨false, []⟩

/-- Modelled from the spec: required-field validation of a connection
configuration (endpoint, credential, resource limits). -/
def validConfig (cfg : ConnConfig) : Bool :=
  cfg.endpointUrl != "" && cfg.credential != "" &&
    cfg.maxQubits != 0 && cfg.maxShots != 0

/-- Modelled from the spec: `configure(config)` — fails `NotInitialized`
before `initialize`, `InvalidArgument` on malformed config,
`Authentication` on credential rejection, `Connection` on transport
failure (session state Failed); on success the previous Connection is
torn down first and exactly one new Ready Connection becomes live. -/
def configure (st : ManagerState) (cfg : ConnConfig) : Status × ManagerState :=
  if st.initialized = false then (.notInitialized, st)
  else if validConfig cfg = false then (.invalidArgument, st)
  else if cfg.credentialOk = false then
    (.authenticationError,
     { st with conns := [⟨cfg.endpointUrl, cfg.credential, .failed⟩] })
  else if cfg.handshakeOk = false then
    (.connectionError,
     { st with conns := [⟨cfg.endpointUrl, cfg.credential, .failed⟩] })
  else (.success, { st with conns := [⟨cfg.endpointUrl, cfg.credential, .ready⟩] })

/-! ## ChannelSecurityVerifier (spec section 4.5) -/

/-- Security verdict of a channel audit or key-distribution run. -/
inductive Verdict where
  | secure
  | compromised
  | inconclusive
deriving DecidableEq, Repr

/-- Modelled from the spec: the smallest error-estimation sample from
which a statistically meaningful conclusion can be drawn. -/
def minSampleSize : Nat := 4

/-- Modelled from the spec: `verifyChannelSecurity` (declared as
`EasyQ_VerifyChannelSecurity` in the internal header only) — a pure
function of the observed statistics: given a QBER estimate, the decision
threshold and the sample size, returns a verdict in
{Secure, Compromised, Inconclusive} plus a numeric confidence.  The
ambient runtime state is passed in (a C implementation could consult it)
but the result does not depend on it: QBER above threshold is
Compromised, a sample too small for a meaningful conclusion is
Inconclusive, otherwise Secure; the confidence grows with the sample
size. -/
def verifyChannelSecurity (_ctx : ManagerState) (qber threshold : Nat)
    (sampleSize : Nat) : Verdict × Nat :=
  if threshold < qber then (.compromised, probScale - probScale / (sampleSize + 1))
  else if sampleSize < minSampleSize then
    (.inconclusive, probScale - probScale / (sampleSize + 1))
  else (.secure, probScale - probScale / (sampleSize + 1))

/-! ## KeyDistributionEngine (spec section 4.4) -/

/-- Key-distribution options (spec section 3, KeyRequest). -/
structure KeyOptions where
  desiredLength : Int
  errorRateThreshold : Nat
deriving DecidableEq, Repr

/-- Key-distribution result (spec section 3, KeyResult): derived key
bits, estimated QBER and security verdict. -/
structure KeyResult where
  key : List Bool
  qber : Nat
  verdict : Verdict
deriving DecidableEq, Repr

/-- One QKD protocol run as observed through the resource: the sender's
raw bits and basis choices (supplied by the RandomnessEngine), the
receiver's basis choices, and the channel noise (positions whose bit was
flipped in transit). -/
structure ChannelRun where
  senderBits : List Bool
  senderBases : List Bool
  receiverBases : List Bool
  flips : List Bool
deriving DecidableEq, Repr

/-- The bit the receiver measures at raw position `i`: the sender's bit,
flipped where the channel introduced an error. -/
def receivedBit (run : ChannelRun) (i : Nat) : Bool :=
  xor (run.senderBits.getD i false) (run.flips.getD i false)

/-- Modelled from the spec: sifting — discard raw positions where the
sender and receiver basis choices disagree; the surviving positions form
the sifted key. -/
def siftedPositions (run : ChannelRun) : List Nat :=
  (List.range run.senderBits.length).filter
    (fun i => run.senderBases.getD i false == run.receiverBases.getD i false)

/-- Modelled from the spec: the size of the sifted-bit subset sampled
for error estimation (a quarter of the sifted key). -/
def sampleCount (run : ChannelRun) : Nat := (siftedPositions run).length / 4

/-- Modelled from the spec: the sifted positions sampled (and publicly
compared) during error estimation. -/
def samplePositions (run : ChannelRun) : List Nat :=
  (siftedPositions run).take (sampleCount run)

/-- Modelled from the spec: the sifted positions remaining after the
error-estimation sample is excluded; only these may contribute to the
final key. -/
def keyPositions (run : ChannelRun) : List Nat :=
  (siftedPositions run).drop (sampleCount run)

/-- Number of sampled positions whose received bit disagrees with the
sent bit. -/
def sampleErrors (run : ChannelRun) : Nat :=
  ((samplePositions run).filter
    (fun i => receivedBit run i != run.senderBits.getD i false)).length

/-- Modelled from the spec: the estimated quantum bit error rate — the
error fraction over the sampled subset, in parts per million (zero when
nothing was sampled; the verdict is then Inconclusive anyway). -/
def estimatedQber (run : ChannelRun) : Nat :=
  sampleErrors run * probScale / sampleCount run

/-- Modelled from the spec: privacy amplification — hash-compress the
input bits down to `outLen` output bits (each output bit is the parity
of a suffix of the input). -/
def privacyAmplify (bits : List Bool) (outLen : Nat) : List Bool :=
  (List.range outLen).map (fun i => (bits.drop i).foldl xor false)

/-- Modelled from the spec: the final key length — the requested length,
capped by the remaining sifted bits after privacy amplification removes
a share that grows with the QBER. -/
def keyOutputLength (opts : KeyOptions) (run : ChannelRun) : Nat :=
  min opts.desiredLength.toNat
    ((keyPositions run).length -
      (estimatedQber run * (keyPositions run).length + probScale - 1) / probScale)

/-- Modelled from the spec: `generateKey` (declared as
`EasyQ_GenerateKey`; no implementation exists under `src/`).  Validates
options (desired length ≤ 0 or a threshold outside `[0, 1]` is
`InvalidArgument`; an uninitialized runtime is `NotInitialized`), sifts,
estimates the QBER over the sampled subset, audits the channel with
`verifyChannelSecurity`, and only on a Secure verdict derives the key by
privacy amplification over the non-sampled sifted bits; on Compromised
or Inconclusive the key field is empty. -/
def generateKey (ctx : ManagerState) (opts : KeyOptions) (run : ChannelRun) :
    Except Status KeyResult :=
  if opts.desiredLength ≤ 0 then .error .invalidArgument
  else if probScale < opts.errorRateThreshold then .error .invalidArgument
  else if ctx.initialized = false then .error .notInitialized
  else if (verifyChannelSecurity ctx (estimatedQber run)
      opts.errorRateThreshold (sampleCount run)).1 = .compromised then
    .ok ⟨[], estimatedQber run, .compromised⟩
  else if (verifyChannelSecurity ctx (estimatedQber run)
      opts.errorRateThreshold (sampleCount run)).1 = .inconclusive then
    .ok ⟨[], estimatedQber run, .inconclusive⟩
  else
    .ok ⟨privacyAmplify ((keyPositions run).map (receivedBit run))
           (keyOutputLength opts run),
         estimatedQber run, .secure⟩

/-! ## Concrete demonstration inputs used by the witnesses -/

/-- A ready runtime state with one live connection. -/
def demoCtx : ManagerState := ⟨true, [⟨"qpu://demo", "token", .ready⟩]⟩

/-- Demonstration key options: 8 key bits, the BB84-style 11% threshold. -/
def demoOpts : KeyOptions := ⟨8, 110000⟩

/-- A noiseless demonstration run of 16 raw bits with all bases
agreeing. -/
def demoRun : ChannelRun :=
  ⟨List.replicate 16 true, List.replicate 16 true,
   List.replicate 16 true, List.replicate 16 false⟩

/-- The key-distribution result of the demonstration run. -/
def demoKeyResult : KeyResult :=
  (generateKey demoCtx demoOpts demoRun).toOption.getD ⟨[], 0, .inconclusive⟩

/-- Demonstration connection configurations. -/
def demoCfgA : ConnConfig := ⟨"qpu://a", "tokenA", 8, 1000, true, true⟩

/-- A second demonstration connection configuration. -/
def demoCfgB : ConnConfig := ⟨"qpu://b", "tokenB", 16, 2000, true, true⟩

/-- Demonstration search options: ten rounds, 90% target. -/
def demoSearchOpts : SearchOptions := ⟨5, 900000⟩

/-- The search result of a demonstration query over two items, with a
single full-amplitude readout. -/
def demoSearchResult : SearchResult :=
  (search ["a", "b"] (fun s => s == "b") demoSearchOpts [probScale]).toOption.getD
    ⟨[], 0, 0, false, 0⟩

end EasyQ

/-- **C10.** The narrower header is a compatibility subset of the richer one:
every status-code name defined in both headers carries the same numeric
value, the shared codes are exactly 0-5, every function declared in
`src/bridge/bridge.h` appears with an identical signature in
`src/internal/bridge/bridge.h`, and the internal header extends the
surface only by `EASYQ_ERROR_AUTHENTICATION = 6`,
`EASYQ_ERROR_CONNECTION = 7` and `EasyQ_VerifyChannelSecurity`. -/
theorem EasyQ.c10_headers_compatible_subset :
    (∀ p ∈ EasyQ.bridgeStatusCodes, ∀ q ∈ EasyQ.internalStatusCodes,
        p.1 = q.1 → p.2 = q.2) ∧
    (∀ p ∈ EasyQ.bridgeStatusCodes, p ∈ EasyQ.internalStatusCodes) ∧
    EasyQ.bridgeStatusCodes.map Prod.snd = [0, 1, 2, 3, 4, 5] ∧
    (∀ p ∈ EasyQ.internalStatusCodes,
        p ∈ EasyQ.bridgeStatusCodes ∨
        p = ("EASYQ_ERROR_AUTHENTICATION", 6) ∨
        p = ("EASYQ_ERROR_CONNECTION", 7)) ∧
    (∀ d ∈ EasyQ.bridgeDecls, d ∈ EasyQ.internalDecls) ∧
    (∀ d ∈ EasyQ.internalDecls,
        d ∈ EasyQ.bridgeDecls ∨ d = EasyQ.verifyChannelSecurityDecl) := by
  decide

/-- Helper: an accepted rejection sample lies below the range. -/
theorem EasyQ.rejectionSample_lt (range : Nat) :
    ∀ entropy s, EasyQ.rejectionSample range entropy = some s → s < range := by
  intro entropy
  induction entropy with
  | nil => intro s h; simp [EasyQ.rejectionSample] at h
  | cons a rest ih =>
      intro s h
      by_cases ha : a < range
      · simp [EasyQ.rejectionSample, ha] at h
        exact h ▸ ha
      · simp [EasyQ.rejectionSample, ha] at h
        exact ih s h

/-- **C3.** For every pair `(min, max)` with `min ≤ max`, a successful
`randomInt(min, max)` returns a value `v` with `min ≤ v ≤ max`; for
every pair with `min > max`, `randomInt` fails with `InvalidArgument`. -/
theorem EasyQ.c3_randomInt_range (entropy : List Nat) (lo hi : Int) :
    (hi < lo → EasyQ.randomInt entropy lo hi = .error .invalidArgument) ∧
    (∀ v p, EasyQ.randomInt entropy lo hi = .ok (v, p) → lo ≤ v ∧ v ≤ hi) := by
  constructor
  · intro h
    simp [EasyQ.randomInt, h]
  · intro v p h
    unfold EasyQ.randomInt at h
    by_cases hlt : hi < lo
    · simp [hlt] at h
    · simp only [hlt, if_false] at h
      cases hr : EasyQ.rejectionSample (hi - lo + 1).toNat entropy with
      | none => rw [hr] at h; simp at h
      | some s =>
          rw [hr] at h
          simp only [Except.ok.injEq, Prod.mk.injEq] at h
          obtain ⟨hv, -⟩ := h
          have hs := EasyQ.rejectionSample_lt _ entropy s hr
          omega

/-- Witness for C3 at concrete inputs: `randomInt` over the entropy
stream `[300, 2]` rejects `300`, accepts `2`, and returns `5 + 2 = 7`
within `[5, 10]`; swapped bounds give `InvalidArgument`. -/
theorem EasyQ.c3_randomInt_range_witness :
    EasyQ.randomInt [300, 2] 11 10 = .error .invalidArgument ∧
    ((5:Int) ≤ 7 ∧ (7:Int) ≤ 10) :=
  ⟨(EasyQ.c3_randomInt_range [300, 2] 11 10).1 (by decide),
   (EasyQ.c3_randomInt_range [300, 2] 5 10).2 7 .quantumSourced rfl⟩

/-- **C4.** For every `length ≥ 0`, a successful `randomBytes(length)`
fills the buffer with exactly `length` bytes; for every `length < 0` it
fails with `InvalidArgument`; and a `Timeout` outcome never delivers a
partially-filled buffer presented as complete (every returned buffer is
full-length, error outcomes carry no buffer at all). -/
theorem EasyQ.c4_randomBytes (quantum : Option (List Nat))
    (classical : List Nat) (length : Int) :
    (length < 0 →
      EasyQ.randomBytes quantum classical length = .error .invalidArgument) ∧
    (∀ buf p, EasyQ.randomBytes quantum classical length = .ok (buf, p) →
      buf.length = length.toNat) := by
  constructor
  · intro h
    simp [EasyQ.randomBytes, h]
  · intro buf p h
    unfold EasyQ.randomBytes at h
    by_cases hneg : length < 0
    · simp [hneg] at h
    · simp only [hneg, if_false] at h
      cases quantum with
      | some qs =>
          by_cases hle : length.toNat ≤ qs.length
          · simp only [hle, if_true, Except.ok.injEq, Prod.mk.injEq] at h
            obtain ⟨hb, -⟩ := h
            subst hb
            simp [List.length_take, Nat.min_eq_left hle]
          · simp [hle] at h
      | none =>
          by_cases hle : length.toNat ≤ classical.length
          · simp only [hle, if_true, Except.ok.injEq, Prod.mk.injEq] at h
            obtain ⟨hb, -⟩ := h
            subst hb
            simp [List.length_take, Nat.min_eq_left hle]
          · simp [hle] at h

/-- Witness for C4 at concrete inputs: a three-byte draw from a
four-byte quantum stream returns exactly three bytes, and a negative
length fails `InvalidArgument`. -/
theorem EasyQ.c4_randomBytes_witness :
    EasyQ.randomBytes (some [9, 8, 7, 6]) [] (-1) = .error .invalidArgument ∧
    [9, 8, 7].length = (3:Int).toNat :=
  ⟨(EasyQ.c4_randomBytes (some [9, 8, 7, 6]) [] (-1)).1 (by decide),
   (EasyQ.c4_randomBytes (some [9, 8, 7, 6]) [] 3).2 [9, 8, 7]
     .quantumSourced rfl⟩

/-- **C5.** For every search request whose item collection is empty (and
whose options pass validation), `search` succeeds with an empty match
set and confidence exactly `1.0`, and the quantum resource is never
contacted (zero resource calls). -/
theorem EasyQ.c5_search_empty (pred : String → Bool)
    (opts : EasyQ.SearchOptions) (readouts : List Nat)
    (h : opts.target ≤ EasyQ.probScale) :
    EasyQ.search [] pred opts readouts =
      .ok ⟨[], EasyQ.probScale, 0, false, 0⟩ := by
  unfold EasyQ.search
  rw [if_neg (not_lt.mpr h)]
  rfl

/-- Witness for C5: the demonstration options over an empty collection. -/
theorem EasyQ.c5_search_empty_witness :
    EasyQ.search [] (fun _ => false) EasyQ.demoSearchOpts [] =
      .ok ⟨[], EasyQ.probScale, 0, false, 0⟩ :=
  EasyQ.c5_search_empty (fun _ => false) EasyQ.demoSearchOpts [] (by decide)

/-- **C6.** Every successful search result either achieves a confidence
at least the requested target, or carries the degraded-result flag;
`search` never silently under-delivers. -/
theorem EasyQ.c6_search_degraded (items : List String) (pred : String → Bool)
    (opts : EasyQ.SearchOptions) (readouts : List Nat) :
    ∀ r, EasyQ.search items pred opts readouts = .ok r →
      opts.target ≤ r.confidence ∨ r.degraded = true := by
  intro r h
  unfold EasyQ.search at h
  by_cases hv : EasyQ.probScale < opts.target
  · rw [if_pos hv] at h
    simp at h
  · rw [if_neg hv] at h
    by_cases he : items = []
    · rw [if_pos he] at h
      injection h with h
      subst h
      exact Or.inl (not_lt.mp hv)
    · rw [if_neg he] at h
      dsimp only at h
      injection h with h
      subst h
      by_cases hc : (EasyQ.runRounds opts.target readouts
          (min opts.maxIterations (EasyQ.groverBound items.length)) 0).1 <
            opts.target
      · exact Or.inr (decide_eq_true hc)
      · exact Or.inl (not_lt.mp hc)

/-- Witness for C6: the demonstration two-item query meets its target. -/
theorem EasyQ.c6_search_degraded_witness :
    EasyQ.demoSearchOpts.target ≤ EasyQ.demoSearchResult.confidence ∨
      EasyQ.demoSearchResult.degraded = true :=
  EasyQ.c6_search_degraded ["a", "b"] (fun s => s == "b") EasyQ.demoSearchOpts
    [EasyQ.probScale] EasyQ.demoSearchResult rfl

/-- **C7 (counterexample).** The claim requires the double-initialize
failure status RuntimeNotReady to be expressible in the declared
status-code set, but the headers declare exactly the eight codes listed
here and none of them is a RuntimeNotReady code. -/
theorem EasyQ.c7_counterexample :
    EasyQ.internalStatusCodes.map Prod.fst =
      ["EASYQ_SUCCESS", "EASYQ_ERROR_GENERAL", "EASYQ_ERROR_NOT_INITIALIZED",
       "EASYQ_ERROR_INVALID_ARGUMENT", "EASYQ_ERROR_RUNTIME",
       "EASYQ_ERROR_TIMEOUT", "EASYQ_ERROR_AUTHENTICATION",
       "EASYQ_ERROR_CONNECTION"] ∧
    (∀ p ∈ EasyQ.internalStatusCodes,
        p.1 ≠ "EASYQ_ERROR_RUNTIME_NOT_READY") ∧
    (∀ p ∈ EasyQ.bridgeStatusCodes,
        p.1 ≠ "EASYQ_ERROR_RUNTIME_NOT_READY") := by
  decide

/-- **C7 (amended).** A first `initialize()` on an uninitialized process
succeeds; a second call without an intervening `shutdown()` fails with a
status from the declared status-code set (the model uses the declared
Runtime error, since no declared code names RuntimeNotReady) and is
idempotent on the process state: the failing call leaves the state
exactly as the first call left it. -/
theorem EasyQ.c7_init_idempotent (st : EasyQ.ManagerState)
    (h : st.initialized = false) :
    (EasyQ.initRuntime st).1 = .success ∧
    ((EasyQ.initRuntime st).2).initialized = true ∧
    (EasyQ.initRuntime (EasyQ.initRuntime st).2).1 = .runtimeError ∧
    (EasyQ.initRuntime (EasyQ.initRuntime st).2).2 = (EasyQ.initRuntime st).2 ∧
    ("EASYQ_ERROR_RUNTIME", EasyQ.Status.runtimeError.code) ∈
      EasyQ.internalStatusCodes := by
  refine ⟨?_, ?_, ?_, ?_, by decide⟩ <;>
    simp [EasyQ.initRuntime, h]

/-- Witness for C7 (amended): the fresh process state. -/
theorem EasyQ.c7_init_idempotent_witness :
    (EasyQ.initRuntime ⟨false, []⟩).1 = .success ∧
    ((EasyQ.initRuntime ⟨false, []⟩).2).initialized = true ∧
    (EasyQ.initRuntime (EasyQ.initRuntime ⟨false, []⟩).2).1 = .runtimeError ∧
    (EasyQ.initRuntime (EasyQ.initRuntime ⟨false, []⟩).2).2 =
      (EasyQ.initRuntime ⟨false, []⟩).2 ∧
    ("EASYQ_ERROR_RUNTIME", EasyQ.Status.runtimeError.code) ∈
      EasyQ.internalStatusCodes :=
  EasyQ.c7_init_idempotent ⟨false, []⟩ rfl

/-- **C8.** Calling `configureConnection` twice in a row with valid,
accepted configurations leaves exactly one live Connection and it is
Ready: the reconfiguration replaces the previous Connection instead of
adding a second one. -/
theorem EasyQ.c8_reconfigure_single (st : EasyQ.ManagerState)
    (cfgA cfgB : EasyQ.ConnConfig)
    (hinit : st.initialized = true)
    (hAv : EasyQ.validConfig cfgA = true)
    (hAc : cfgA.credentialOk = true) (hAh : cfgA.handshakeOk = true)
    (hBv : EasyQ.validConfig cfgB = true)
    (hBc : cfgB.credentialOk = true) (hBh : cfgB.handshakeOk = true) :
    ((EasyQ.configure (EasyQ.configure st cfgA).2 cfgB).2).conns =
      [⟨cfgB.endpointUrl, cfgB.credential, .ready⟩] := by
  simp [EasyQ.configure, hinit, hAv, hAc, hAh, hBv, hBc, hBh]

/-- Witness for C8: two concrete reconfigurations from a fresh
initialized state leave exactly the second connection, Ready. -/
theorem EasyQ.c8_reconfigure_single_witness :
    ((EasyQ.configure (EasyQ.configure ⟨true, []⟩ EasyQ.demoCfgA).2
        EasyQ.demoCfgB).2).conns =
      [⟨EasyQ.demoCfgB.endpointUrl, EasyQ.demoCfgB.credential, .ready⟩] :=
  EasyQ.c8_reconfigure_single ⟨true, []⟩ EasyQ.demoCfgA EasyQ.demoCfgB
    rfl rfl rfl rfl rfl rfl rfl

/-- **C9.** `verifyChannelSecurity` is a deterministic pure function of
its observed-statistics inputs: two calls with the same QBER estimate,
threshold and sample size return the same verdict and the same numeric
confidence whatever the ambient runtime state is — no hidden state. -/
theorem EasyQ.c9_verify_pure (ctxA ctxB : EasyQ.ManagerState)
    (qber threshold sampleSize : Nat) :
    EasyQ.verifyChannelSecurity ctxA qber threshold sampleSize =
      EasyQ.verifyChannelSecurity ctxB qber threshold sampleSize := rfl

/-- **C1.** For every `generateKey` call, a non-empty key is returned
only when the security verdict is Secure; whenever the verdict is
Compromised the key field is empty, and whenever the estimated QBER
exceeds `Options.errorRateThreshold` the verdict is Compromised. -/
theorem EasyQ.c1_generateKey_secure_only (ctx : EasyQ.ManagerState)
    (opts : EasyQ.KeyOptions) (run : EasyQ.ChannelRun) :
    ∀ r, EasyQ.generateKey ctx opts run = .ok r →
      (r.key ≠ [] → r.verdict = .secure) ∧
      (r.verdict = .compromised → r.key = []) ∧
      (opts.errorRateThreshold < r.qber → r.verdict = .compromised) := by
  intro r h
  unfold EasyQ.generateKey at h
  by_cases hd : opts.desiredLength ≤ 0
  · rw [if_pos hd] at h
    simp at h
  · rw [if_neg hd] at h
    by_cases ht : EasyQ.probScale < opts.errorRateThreshold
    · rw [if_pos ht] at h
      simp at h
    · rw [if_neg ht] at h
      by_cases hi : ctx.initialized = false
      · rw [if_pos hi] at h
        simp at h
      · rw [if_neg hi] at h
        by_cases hq : opts.errorRateThreshold < EasyQ.estimatedQber run
        · have hv : (EasyQ.verifyChannelSecurity ctx (EasyQ.estimatedQber run)
              opts.errorRateThreshold (EasyQ.sampleCount run)).1 =
                .compromised := by
            unfold EasyQ.verifyChannelSecurity
            rw [if_pos hq]
          rw [if_pos hv] at h
          injection h with h
          subst h
          exact ⟨fun hk => absurd rfl hk, fun _ => rfl, fun _ => rfl⟩
        · have hnc : (EasyQ.verifyChannelSecurity ctx (EasyQ.estimatedQber run)
              opts.errorRateThreshold (EasyQ.sampleCount run)).1 ≠
                .compromised := by
            unfold EasyQ.verifyChannelSecurity
            rw [if_neg hq]
            split <;> simp
          rw [if_neg hnc] at h
          by_cases hs : EasyQ.sampleCount run < EasyQ.minSampleSize
          · have hvi : (EasyQ.verifyChannelSecurity ctx (EasyQ.estimatedQber run)
                opts.errorRateThreshold (EasyQ.sampleCount run)).1 =
                  .inconclusive := by
              unfold EasyQ.verifyChannelSecurity
              rw [if_neg hq, if_pos hs]
            rw [if_pos hvi] at h
            injection h with h
            subst h
            exact ⟨fun hk => absurd rfl hk, fun _ => rfl,
                   fun hq2 => absurd hq2 hq⟩
          · have hni : (EasyQ.verifyChannelSecurity ctx (EasyQ.estimatedQber run)
                opts.errorRateThreshold (EasyQ.sampleCount run)).1 ≠
                  .inconclusive := by
              unfold EasyQ.verifyChannelSecurity
              rw [if_neg hq, if_neg hs]
              simp
            rw [if_neg hni] at h
            injection h with h
            subst h
            refine ⟨fun _ => rfl, fun hc => ?_, fun hq2 => absurd hq2 hq⟩
            simp at hc

/-- Witness for C1: the noiseless demonstration run yields a non-empty
key and the Secure verdict. -/
theorem EasyQ.c1_generateKey_secure_only_witness :
    EasyQ.demoKeyResult.key ≠ [] ∧ EasyQ.demoKeyResult.verdict = .secure :=
  ⟨by decide,
   (EasyQ.c1_generateKey_secure_only EasyQ.demoCtx EasyQ.demoOpts EasyQ.demoRun
      EasyQ.demoKeyResult rfl).1 (by decide)⟩

/-- **C2.** The sifted-bit positions sampled during error estimation are
disjoint from the positions that make up the returned key: no sampled
index is ever among the key positions, and every key `generateKey`
returns is built only from the non-sampled positions (or is empty). -/
theorem EasyQ.c2_sample_key_disjoint (ctx : EasyQ.ManagerState)
    (opts : EasyQ.KeyOptions) (run : EasyQ.ChannelRun) :
    (∀ i ∈ EasyQ.samplePositions run, i ∉ EasyQ.keyPositions run) ∧
    (∀ r, EasyQ.generateKey ctx opts run = .ok r →
        r.key = [] ∨
        r.key = EasyQ.privacyAmplify
            ((EasyQ.keyPositions run).map (EasyQ.receivedBit run))
            (EasyQ.keyOutputLength opts run)) := by
  constructor
  · intro i hi hk
    have hnodup : (EasyQ.siftedPositions run).Nodup :=
      List.Nodup.filter _ (List.nodup_range _)
    exact List.disjoint_take_drop hnodup le_rfl hi hk
  · intro r h
    unfold EasyQ.generateKey at h
    by_cases hd : opts.desiredLength ≤ 0
    · rw [if_pos hd] at h
      simp at h
    · rw [if_neg hd] at h
      by_cases ht : EasyQ.probScale < opts.errorRateThreshold
      · rw [if_pos ht] at h
        simp at h
      · rw [if_neg ht] at h
        by_cases hi : ctx.initialized = false
        · rw [if_pos hi] at h
          simp at h
        · rw [if_neg hi] at h
          by_cases hc : (EasyQ.verifyChannelSecurity ctx
              (EasyQ.estimatedQber run) opts.errorRateThreshold
              (EasyQ.sampleCount run)).1 = .compromised
          · rw [if_pos hc] at h
            injection h with h
            subst h
            exact Or.inl rfl
          · rw [if_neg hc] at h
            by_cases hin : (EasyQ.verifyChannelSecurity ctx
                (EasyQ.estimatedQber run) opts.errorRateThreshold
                (EasyQ.sampleCount run)).1 = .inconclusive
            · rw [if_pos hin] at h
              injection h with h
              subst h
              exact Or.inl rfl
            · rw [if_neg hin] at h
              injection h with h
              subst h
              exact Or.inr rfl

/-- Witness for C2: in the demonstration run, raw position 0 is sampled
and therefore not a key position, and the returned key is built from
the non-sampled positions. -/
theorem EasyQ.c2_sample_key_disjoint_witness :
    (0 ∉ EasyQ.keyPositions EasyQ.demoRun) ∧
    (EasyQ.demoKeyResult.key = [] ∨
      EasyQ.demoKeyResult.key = EasyQ.privacyAmplify
        ((EasyQ.keyPositions EasyQ.demoRun).map
          (EasyQ.receivedBit EasyQ.demoRun))
        (EasyQ.keyOutputLength EasyQ.demoOpts EasyQ.demoRun)) :=
  ⟨(EasyQ.c2_sample_key_disjoint EasyQ.demoCtx EasyQ.demoOpts EasyQ.demoRun).1
      0 (by decide),
   (EasyQ.c2_sample_key_disjoint EasyQ.demoCtx EasyQ.demoOpts EasyQ.demoRun).2
      EasyQ.demoKeyResult rfl⟩
